import Mathlib

/-!
Verification of the cricsinfo-api aggregation-and-classification engine.

The definitions below are a shallow embedding of the Python sources:
  app/sources/parsing.py      (classify_status, parse_date_range)
  app/services/scores_service.py  (_merge, _is_today_match, _fetch_all_sources,
                                   get_match_list, get_match_detail)
  app/models/schemas.py       (Match, MatchStatus, responses)
  app/core/cache.py           (absent from the provided sources; modelled from
                               the specification of the TTL cache)

Strings are Lean Strings processed as lists of characters; Python `date`
values are embedded as the natural number y*10000 + m*100 + d, which orders
valid calendar dates exactly as Python's `datetime.date` does; construction
validity (month lengths, leap years, year bounds) is checked explicitly,
with a raised ValueError embedded as `Except.error`.
-/

/-- Python-style word character for the regex escapes used in parsing.py
(ASCII model of re's \w). -/
def isWordChar (c : Char) : Bool :=
  c.isAlpha || c.isDigit || c == '_'

/-- Whitespace characters recognised by the regex escape \s (ASCII model). -/
def isSpaceChar (c : Char) : Bool :=
  c == ' ' || c == '\t' || c == '\n' || c == '\r' || c == '\x0b' || c == '\x0c'

/-- ASCII lower-casing of one character, as `str.lower` acts on the ASCII
range (all classification cues are ASCII). -/
def pyLowerChar (c : Char) : Char := c.toLower

/-- Lower-case a whole string, modelling `block_text.lower()`. -/
def pyLower (s : List Char) : List Char := s.map pyLowerChar

/-- Substring test, modelling the Python expression `needle in hay`. -/
def isSubstr (needle hay : List Char) : Bool :=
  hay.tails.any (fun t => needle.isPrefixOf t)

/-- The RESULT cue list of classify_status (parsing.py line 64). -/
def resultCues : List (List Char) :=
  [("won by").toList, ("match drawn").toList, ("abandoned").toList,
   ("no result").toList, ("tied").toList, ("stumps -").toList,
   ("result").toList]

/-- Generic regex-style search: try the matcher at every position of the
text, left to right, handing it the previous character for word-boundary
tests. -/
def searchFrom (p : Option Char → List Char → Bool) :
    Option Char → List Char → Bool
  | prev, [] => p prev []
  | prev, c :: rest => p prev (c :: rest) || searchFrom p (some c) rest

/-- Split a leading run of decimal digits from the text. -/
def takeDigits : List Char → (List Char × List Char)
  | [] => ([], [])
  | c :: rest =>
    if c.isDigit then
      let (ds, r) := takeDigits rest
      (c :: ds, r)
    else ([], c :: rest)

/-- Split a leading run of \s whitespace from the text. -/
def takeSpaces : List Char → (List Char × List Char)
  | [] => ([], [])
  | c :: rest =>
    if isSpaceChar c then
      let (ds, r) := takeSpaces rest
      (c :: ds, r)
    else ([], c :: rest)

/-- One-or-more digits (the regex \d+), returning the rest on success. -/
def digits1 (cs : List Char) : Option (List Char × List Char) :=
  let (ds, r) := takeDigits cs
  if ds.isEmpty then none else some (ds, r)

/-- Word boundary \b before a word character at the current position. -/
def boundaryBefore (prev : Option Char) : Bool :=
  match prev with
  | none => true
  | some c => !isWordChar c

/-- Word boundary \b after a word character: end of text or a non-word
character next. -/
def boundaryAfter : List Char → Bool
  | [] => true
  | c :: _ => !isWordChar c

/-- Case-insensitive match of a literal ASCII-lowercase word, returning the
rest of the text (models re.IGNORECASE literals). -/
def matchWordCI : List Char → List Char → Option (List Char)
  | [], rest => some rest
  | _, [] => none
  | w :: ws, c :: cs => if pyLowerChar c == w then matchWordCI ws cs else none

/-- Score pattern 1 of classify_status: \b\d+/\d+\b (e.g. 26/1). -/
def scorePat1 (prev : Option Char) (cs : List Char) : Bool :=
  boundaryBefore prev &&
  (match digits1 cs with
   | none => false
   | some (_, r1) =>
     match r1 with
     | '/' :: r2 =>
       (match digits1 r2 with
        | none => false
        | some (_, r3) => boundaryAfter r3)
     | _ => false)

/-- Score pattern 2 of classify_status: \b\d+\s*&\s*\d+\b (e.g. 152 & 132). -/
def scorePat2 (prev : Option Char) (cs : List Char) : Bool :=
  boundaryBefore prev &&
  (match digits1 cs with
   | none => false
   | some (_, r1) =>
     match (takeSpaces r1).2 with
     | '&' :: r2 =>
       (match digits1 (takeSpaces r2).2 with
        | none => false
        | some (_, r3) => boundaryAfter r3)
     | _ => false)

/-- Score pattern 3 of classify_status: \(\d+(\.\d+)?/\d+\s*ov
(e.g. "(3.1/20 ov"). -/
def scorePat3 (_prev : Option Char) (cs : List Char) : Bool :=
  match cs with
  | '(' :: r0 =>
    (match digits1 r0 with
     | none => false
     | some (_, r1) =>
       let r2 :=
         match r1 with
         | '.' :: rdot =>
           (match digits1 rdot with
            | none => r1
            | some (_, rafter) => rafter)
         | _ => r1
       match r2 with
       | '/' :: r3 =>
         (match digits1 r3 with
          | none => false
          | some (_, r4) => (matchWordCI ("ov").toList (takeSpaces r4).2).isSome)
       | _ => false)
  | _ => false

/-- Score pattern 4 of classify_status: \bday\s+\d+\b, case-insensitive. -/
def scorePat4 (prev : Option Char) (cs : List Char) : Bool :=
  boundaryBefore prev &&
  (match matchWordCI ("day").toList cs with
   | none => false
   | some r1 =>
     let (sp, r2) := takeSpaces r1
     if sp.isEmpty then false
     else
       match digits1 r2 with
       | none => false
       | some (_, r3) => boundaryAfter r3)

/-- Score pattern 5 of classify_status: \binnings\b, case-insensitive. -/
def scorePat5 (prev : Option Char) (cs : List Char) : Bool :=
  boundaryBefore prev &&
  (match matchWordCI ("innings").toList cs with
   | none => false
   | some r1 => boundaryAfter r1)

/-- Score pattern 6 of classify_status: \btea\b|\blunch\b, case-insensitive. -/
def scorePat6 (prev : Option Char) (cs : List Char) : Bool :=
  (boundaryBefore prev &&
   (match matchWordCI ("tea").toList cs with
    | none => false
    | some r1 => boundaryAfter r1)) ||
  (boundaryBefore prev &&
   (match matchWordCI ("lunch").toList cs with
    | none => false
    | some r1 => boundaryAfter r1))

/-- The score-like pattern test of classify_status lines 71-79: any of the
six patterns found anywhere in the raw text (IGNORECASE search). -/
def scoreLike (s : List Char) : Bool :=
  searchFrom scorePat1 none s || searchFrom scorePat2 none s ||
  searchFrom scorePat3 none s || searchFrom scorePat4 none s ||
  searchFrom scorePat5 none s || searchFrom scorePat6 none s

/-- classify_status from app/sources/parsing.py lines 61-82: priority-ordered
text classification returning one of RESULT, UPCOMING, LIVE, UNKNOWN. -/
def classify_status (block_text : String) : String :=
  let t := pyLower block_text.toList
  if resultCues.any (fun cue => isSubstr cue t) then "RESULT"
  else if isSubstr ("starts at").toList t ||
          (isSubstr ("start").toList t && isSubstr ("local time").toList t) then
    "UPCOMING"
  else if scoreLike block_text.toList && !isSubstr ("starts at").toList t then
    "LIVE"
  else "UNKNOWN"

example : classify_status "ENG 250 all out, won by 40 runs" = "RESULT" := by decide
example : classify_status "AUS 152 & 132, Day 2" = "LIVE" := by decide
example : classify_status "Starts at 09:30 local time" = "UPCOMING" := by decide
example : classify_status "hello world" = "UNKNOWN" := by decide

/-- Leap-year rule of the Gregorian calendar as used by datetime.date. -/
def isLeapYear (y : Nat) : Bool :=
  y % 4 == 0 && (y % 100 != 0 || y % 400 == 0)

/-- Number of days in a month, as validated by datetime.date. -/
def daysInMonth (y m : Nat) : Nat :=
  if m == 2 then (if isLeapYear y then 29 else 28)
  else if m == 4 || m == 6 || m == 9 || m == 11 then 30
  else 31

/-- Python date(y, m, d) construction: yields the order-preserving key
y*10000 + m*100 + d for a valid calendar date and embeds the ValueError
raised on an invalid one as Except.error. -/
def mkDate (y m d : Nat) : Except Unit Nat :=
  if 1 ≤ y && y ≤ 9999 && 1 ≤ m && m ≤ 12 && 1 ≤ d && d ≤ daysInMonth y m then
    Except.ok (y * 10000 + m * 100 + d)
  else Except.error ()

/-- The MONTHS table of parsing.py lines 5-8. -/
def MONTHS : List (List Char × Nat) :=
  [(("Jan").toList, 1), (("Feb").toList, 2), (("Mar").toList, 3),
   (("Apr").toList, 4), (("May").toList, 5), (("Jun").toList, 6),
   (("Jul").toList, 7), (("Aug").toList, 8), (("Sep").toList, 9),
   (("Oct").toList, 10), (("Nov").toList, 11), (("Dec").toList, 12)]

/-- MONTHS.get(key): dictionary lookup returning none when absent. -/
def monthsGet (k : List Char) : Option Nat :=
  (MONTHS.find? (fun p => p.1 == k)).map (fun p => p.2)

/-- text.replace of the non-breaking space with a plain space. -/
def replaceNbsp (s : List Char) : List Char :=
  s.map (fun c => if c == ' ' then ' ' else c)

/-- str.strip(): remove leading and trailing whitespace. -/
def stripChars (s : List Char) : List Char :=
  ((s.dropWhile isSpaceChar).reverse.dropWhile isSpaceChar).reverse

/-- Regex-style leftmost search returning the first position's first
successful parse, handing the matcher the previous character. -/
def searchFirst {α : Type} (p : Option Char → List Char → Option α) :
    Option Char → List Char → Option α
  | prev, [] => p prev []
  | prev, c :: rest => p prev (c :: rest) <|> searchFirst p (some c) rest

/-- Consume exactly n decimal digits. -/
def digitsExact : Nat → List Char → Option (List Char × List Char)
  | 0, cs => some ([], cs)
  | _ + 1, [] => none
  | n + 1, c :: cs =>
    if c.isDigit then (digitsExact n cs).map (fun p => (c :: p.1, p.2)) else none

/-- Numeric value of a digit-character run. -/
def digitsVal (ds : List Char) : Nat :=
  ds.foldl (fun n c => n * 10 + (c.toNat - 48)) 0

/-- Consume a (possibly empty) run of ASCII lowercase letters. -/
def takeLowers : List Char → (List Char × List Char)
  | [] => ([], [])
  | c :: rest =>
    if c.isLower then
      let (ls, r) := takeLowers rest
      (c :: ls, r)
    else ([], c :: rest)

/-- Tail of regex 1 of parse_date_range: \s+(\d{4})\b after the day part. -/
def parseYearEnd (cs : List Char) : Option Nat :=
  let (sp, r) := takeSpaces cs
  if sp.isEmpty then none
  else
    match digitsExact 4 r with
    | none => none
    | some (ds, r2) => if boundaryAfter r2 then some (digitsVal ds) else none

/-- The optional comma of regex 1, (?:,)?, preferring the consumed form. -/
def parseCommaYear (cs : List Char) : Option Nat :=
  (match cs with
   | ',' :: r => parseYearEnd r
   | _ => none) <|> parseYearEnd cs

/-- The optional day-range suffix of regex 1, (?:-(\d{1,2}))?, greedy on the
second day, then the comma and year. -/
def parseDash (cs : List Char) : Option (Option Nat × Nat) :=
  (match cs with
   | '-' :: r =>
     (match digitsExact 2 r with
      | some (ds, r2) => (parseCommaYear r2).map (fun y => (some (digitsVal ds), y))
      | none => none) <|>
     (match digitsExact 1 r with
      | some (ds, r2) => (parseCommaYear r2).map (fun y => (some (digitsVal ds), y))
      | none => none)
   | _ => none) <|>
  (parseCommaYear cs).map (fun y => ((none : Option Nat), y))

/-- Matcher for regex 1 of parse_date_range (parsing.py line 40):
\b([A-Z][a-z]-x2-)\s+(\d-x1,2-)(?:-(\d-x1,2-))?(?:,)?\s+(\d-x4-)\b,
returning (month token, day1, optional day2, year). -/
def dateMatch1At (prev : Option Char) (cs : List Char) :
    Option (List Char × Nat × Option Nat × Nat) :=
  if !boundaryBefore prev then none
  else
    match cs with
    | c1 :: c2 :: c3 :: rest =>
      if c1.isUpper && c2.isLower && c3.isLower then
        let (sp, r0) := takeSpaces rest
        if sp.isEmpty then none
        else
          (match digitsExact 2 r0 with
           | some (ds, r1) =>
             (parseDash r1).map (fun p => ([c1, c2, c3], digitsVal ds, p.1, p.2))
           | none => none) <|>
          (match digitsExact 1 r0 with
           | some (ds, r1) =>
             (parseDash r1).map (fun p => ([c1, c2, c3], digitsVal ds, p.1, p.2))
           | none => none)
      else none
    | _ => none

/-- Matcher for regex 2 of parse_date_range (parsing.py line 51):
\b([A-Z][a-z]+)\s+(\d-x1,2-),\s+(\d-x4-)\b, returning
(month name, day, year). -/
def dateMatch2At (prev : Option Char) (cs : List Char) :
    Option (List Char × Nat × Nat) :=
  if !boundaryBefore prev then none
  else
    match cs with
    | c1 :: rest =>
      if c1.isUpper then
        let (ls, r0) := takeLowers rest
        if ls.isEmpty then none
        else
          let (sp, r1) := takeSpaces r0
          if sp.isEmpty then none
          else
            let tryLen := fun (n : Nat) =>
              match digitsExact n r1 with
              | some (ds, r2) =>
                (match r2 with
                 | ',' :: r3 =>
                   let (sp2, r4) := takeSpaces r3
                   if sp2.isEmpty then none
                   else
                     match digitsExact 4 r4 with
                     | some (ys, r5) =>
                       if boundaryAfter r5 then
                         some (c1 :: ls, digitsVal ds, digitsVal ys)
                       else none
                     | none => none
                 | _ => none)
              | none => none
            tryLen 2 <|> tryLen 1
      else none
    | _ => none

/-- parse_date_range from app/sources/parsing.py lines 28-59; a ValueError
raised by the date constructor is embedded as Except.error. -/
def parse_date_range (text : String) : Except Unit (Option Nat × Option Nat) :=
  let t := stripChars (replaceNbsp text.toList)
  match searchFirst dateMatch1At none t with
  | some (mon_s, d1, d2, y) =>
    (match monthsGet mon_s with
     | none => Except.ok (none, none)
     | some mon =>
       match mkDate y mon d1 with
       | Except.error e => Except.error e
       | Except.ok start =>
         match d2 with
         | none => Except.ok (some start, some start)
         | some dd =>
           match mkDate y mon dd with
           | Except.error e => Except.error e
           | Except.ok stop => Except.ok (some start, some stop))
  | none =>
    match searchFirst dateMatch2At none t with
    | some (nm, d, y) =>
      (match monthsGet (nm.take 3) with
       | some mon =>
         match mkDate y mon d with
         | Except.error e => Except.error e
         | Except.ok dt => Except.ok (some dt, some dt)
       | none => Except.ok (none, none))
    | none => Except.ok (none, none)

example : parse_date_range "Dec 27 2025" = Except.ok (some 20251227, some 20251227) := rfl
example : parse_date_range "Dec 26-30 2025" = Except.ok (some 20251226, some 20251230) := rfl
example : parse_date_range "Dec 26-27, 2025" = Except.ok (some 20251226, some 20251227) := rfl
example : parse_date_range "December 27, 2025" = Except.ok (some 20251227, some 20251227) := rfl
example : parse_date_range "no dates here" = Except.ok (none, none) := rfl
example : parse_date_range "Feb 30 2025" = Except.error () := rfl
example : parse_date_range "Xyz 12 2025 and Dec 27 2025" = Except.ok (none, none) := rfl

/-- MatchStatus from app/models/schemas.py lines 6-10. -/
inductive MatchStatus where
  | LIVE
  | UPCOMING
  | RESULT
  | UNKNOWN
deriving DecidableEq, Repr

/-- Match from app/models/schemas.py lines 12-29; dates are embedded as
y*10000 + m*100 + d keys (see mkDate). -/
structure Match where
  match_id : Nat
  source : String
  url : String
  series : Option String := none
  title : Option String := none
  description : Option String := none
  status : MatchStatus := MatchStatus.UNKNOWN
  start_date : Option Nat := none
  end_date : Option Nat := none
  score_summary : Option String := none
  result_summary : Option String := none
  note : Option String := none
deriving DecidableEq, Repr

/-- The generic field rule of the _merge loop (scores_service.py lines
34-42) for an Optional[str] field: skip a missing incoming value, otherwise
fill only a missing or empty prior value. -/
def mergeOptStr (o n : Option String) : Option String :=
  match n with
  | none => o
  | some v =>
    match o with
    | none => some v
    | some s => if s = "" then some v else some s

/-- The generic field rule of the _merge loop for an optional date field:
dates are not strings, so only a missing prior value is filled. -/
def mergeOptDate (o n : Option Nat) : Option Nat :=
  match n with
  | none => o
  | some v =>
    match o with
    | none => some v
    | some d => some d

/-- The status rule of the _merge loop (scores_service.py lines 37-39):
only a known incoming status may replace a prior UNKNOWN. -/
def mergeStatus (o n : MatchStatus) : MatchStatus :=
  if o = MatchStatus.UNKNOWN ∧ n ≠ MatchStatus.UNKNOWN then n else o

/-- The generic loop rule applied to a required str field: an empty prior
value is overwritten by the incoming one. -/
def mergeStrLoop (o n : String) : String :=
  if o = "" then n else o

/-- Python `a or b` on strings: the first operand unless it is empty. -/
def pyOrStr (a b : String) : String :=
  if a ≠ "" then a else b

/-- _merge from app/services/scores_service.py lines 30-46: field-wise
reconciliation of two records for the same match, with the final
unconditional url/source override of lines 44-45. -/
def _merge (old new : Match) : Match :=
  { match_id := old.match_id
    source := pyOrStr new.source (mergeStrLoop old.source new.source)
    url := pyOrStr new.url (mergeStrLoop old.url new.url)
    series := mergeOptStr old.series new.series
    title := mergeOptStr old.title new.title
    description := mergeOptStr old.description new.description
    status := mergeStatus old.status new.status
    start_date := mergeOptDate old.start_date new.start_date
    end_date := mergeOptDate old.end_date new.end_date
    score_summary := mergeOptStr old.score_summary new.score_summary
    result_summary := mergeOptStr old.result_summary new.result_summary
    note := mergeOptStr old.note new.note }

/-- The spec's end-to-end merge scenario: three records for one id merged
left to right yield the union of their fields with the known status. -/
example :
    _merge (_merge
        { match_id := 7, source := "a", url := "u1", title := some "A vs B" }
        { match_id := 7, source := "b", url := "u2", status := MatchStatus.LIVE,
          score_summary := some "120/3" })
      { match_id := 7, source := "c", url := "u3", series := some "Test Series" } =
    { match_id := 7, source := "c", url := "u3", title := some "A vs B",
      status := MatchStatus.LIVE, score_summary := some "120/3",
      series := some "Test Series" } := by decide

/-- _is_today_match from scores_service.py lines 23-28. -/
def isTodayMatch (m : Match) (today : Nat) : Bool :=
  match m.start_date, m.end_date with
  | some s, some e => decide (s ≤ today) && decide (today ≤ e)
  | some s, none => s == today
  | none, _ => true

/-- The past-bucket filter of the mixed branch (scores_service.py line
100). -/
def pastPred (m : Match) (today : Nat) : Bool :=
  (match m.end_date with
   | some e => decide (e < today)
   | none => false) ||
  (match m.start_date with
   | some s => decide (s < today) && (m.status == MatchStatus.RESULT)
   | none => false)

/-- The future-bucket filter of the mixed branch (scores_service.py line
104). -/
def futPred (m : Match) (today : Nat) : Bool :=
  (match m.start_date with
   | some s => decide (s > today)
   | none => false) ||
  (m.status == MatchStatus.UPCOMING)

/-- Sort key of the recent-results ordering (line 101): end date, else
start date, else date(1970, 1, 1). -/
def recentKey (m : Match) : Nat :=
  match m.end_date with
  | some e => e
  | none =>
    match m.start_date with
    | some s => s
    | none => 19700101

/-- Sort key of the upcoming ordering (line 105): start date, else
date(9999, 1, 1). -/
def futKey (m : Match) : Nat :=
  match m.start_date with
  | some s => s
  | none => 99990101

/-- One step of a stable insertion sort: x is placed after every element
y with le y x, so elements comparing equal keep their original order, as
with Python's stable sorted(). -/
def insertSorted {α : Type} (le : α → α → Bool) (x : α) : List α → List α
  | [] => [x]
  | y :: ys => if le y x then y :: insertSorted le x ys else x :: y :: ys

/-- Stable insertion sort embedding Python's sorted(): for a total preorder
the stable sort is unique, so this agrees with Timsort's output. -/
def insertionSort {α : Type} (le : α → α → Bool) (l : List α) : List α :=
  l.foldl (fun acc x => insertSorted le x acc) []

/-- The mode/items selection state computed by get_match_list; the live,
upcoming and recent fields mirror the response fields of lines 126-134. -/
structure ListSelection where
  mode : String
  items : List Match
  live : List Match
  upcoming : List Match
  recent : List Match
deriving DecidableEq, Repr

/-- The pure bucketing, mode selection and item ordering of get_match_list
(scores_service.py lines 87-134), as a function of the merged match set and
the resolved "today"; Python's stable sorted() is embedded as the stable
insertionSort above. -/
def selectList (all_matches : List Match) (today : Nat) : ListSelection :=
  let today_matches := all_matches.filter (fun m => isTodayMatch m today)
  let live := today_matches.filter (fun m => m.status == MatchStatus.LIVE)
  let upcoming := today_matches.filter (fun m => m.status == MatchStatus.UPCOMING)
  let results_today := today_matches.filter (fun m => m.status == MatchStatus.RESULT)
  if today_matches.isEmpty then
    let past := all_matches.filter (fun m => pastPred m today)
    let past_sorted := insertionSort (fun a b => decide (recentKey b ≤ recentKey a)) past
    let recent := past_sorted.take 5
    let fut := all_matches.filter (fun m => futPred m today)
    let fut_sorted := insertionSort (fun a b => decide (futKey a ≤ futKey b)) fut
    let future := fut_sorted.take 5
    { mode := "mixed", items := recent ++ future,
      live := live, upcoming := future, recent := recent }
  else if !live.isEmpty then
    { mode := "live", items := live ++ upcoming ++ results_today,
      live := live, upcoming := upcoming, recent := [] }
  else if !upcoming.isEmpty then
    { mode := "upcoming", items := upcoming ++ results_today,
      live := live, upcoming := upcoming, recent := [] }
  else
    { mode := "mixed", items := results_today,
      live := live, upcoming := upcoming, recent := [] }

/-- One step of the merged-dict build of _fetch_all_sources (lines 64-68):
Python dict insertion-order semantics, merging on a key hit in place. -/
def dictUpdateMatch (d : List (Nat × Match)) (m : Match) : List (Nat × Match) :=
  if d.any (fun p => p.1 == m.match_id) then
    d.map (fun p => if p.1 == m.match_id then (p.1, _merge p.2 m) else p)
  else d ++ [(m.match_id, m)]

/-- The per-source try/except of _fetch_all_sources lines 60-63: a raising
fetch contributes an empty list. -/
def absorbFetch (o : Except Unit (List Match)) : List Match :=
  match o with
  | Except.ok ms => ms
  | Except.error _ => []

/-- _fetch_all_sources from scores_service.py lines 54-70, over the
per-source fetch outcomes of one cycle (each either a match list or a
raised exception). -/
def _fetch_all_sources (outcomes : List (Except Unit (List Match))) : List Match :=
  (outcomes.foldl (fun d o => (absorbFetch o).foldl dictUpdateMatch d) []).map
    (fun p => p.2)

/-- Modelled from the spec: app/core/cache.py is not among the provided
sources; this is the TTL cache of spec section 4.5, an entry per key with
an absolute expiry instant. -/
structure CacheEntry (α : Type) where
  value : α
  expires_at : Nat
deriving DecidableEq, Repr

/-- Modelled from the spec: the process-wide cache store, keyed by string. -/
abbrev Cache (α : Type) := List (String × CacheEntry α)

/-- Modelled from the spec: set(key, value, ttlSeconds) overwrites
unconditionally, stamping expiry now + ttl. -/
def cacheSet {α : Type} (c : Cache α) (key : String) (v : α) (ttl now : Nat) :
    Cache α :=
  (key, { value := v, expires_at := now + ttl }) :: c.filter (fun p => p.1 ≠ key)

/-- Modelled from the spec: get(key) returns the value only if not expired;
an expired entry behaves as absent. -/
def cacheGet {α : Type} (c : Cache α) (key : String) (now : Nat) : Option α :=
  match c.find? (fun p => p.1 == key) with
  | some p => if now < p.2.expires_at then some p.2.value else none
  | none => none

/-- MatchListResponse from app/models/schemas.py lines 31-39
(generated_at embedded as the cycle instant). -/
structure MatchListResponse where
  mode : String
  timezone : String
  generated_at : Nat
  items : List Match
  live : List Match := []
  upcoming : List Match := []
  recent : List Match := []
deriving DecidableEq, Repr

/-- MatchDetailResponse from app/models/schemas.py lines 41-46; the match
field is named match_ because match is a Lean keyword. -/
structure MatchDetailResponse where
  match_ : Match
  fetched_at : Nat
  timezone : String
  raw_text_excerpt : Option String := none
deriving DecidableEq, Repr

/-- The values stored in the process cache: list responses, url maps and
detail responses (each key kind carries one value kind). -/
inductive CacheVal where
  | listResp : MatchListResponse → CacheVal
  | urlMapVal : List (Nat × String) → CacheVal
  | detailResp : MatchDetailResponse → CacheVal
deriving DecidableEq, Repr

/-- Python dict insert for the url map comprehension of line 84: a later
binding for the same id overwrites in place. -/
def dictInsertUrl (d : List (Nat × String)) (k : Nat) (v : String) :
    List (Nat × String) :=
  if d.any (fun p => p.1 == k) then
    d.map (fun p => if p.1 == k then (p.1, v) else p)
  else d ++ [(k, v)]

/-- The url-map comprehension of scores_service.py line 84: match_id to url
for every match with a non-empty url. -/
def buildUrlMap (ms : List Match) : List (Nat × String) :=
  ms.foldl (fun d m => if m.url ≠ "" then dictInsertUrl d m.match_id m.url else d) []

/-- url_map.get(match_id): none when the id is absent. -/
def urlMapGet (d : List (Nat × String)) (k : Nat) : Option String :=
  (d.find? (fun p => p.1 == k)).map (fun p => p.2)

/-- LIST_CACHE_TTL_SECONDS default from app/core/config.py line 8. -/
def LIST_CACHE_TTL_SECONDS : Nat := 15

/-- DETAIL_CACHE_TTL_SECONDS default from app/core/config.py line 9. -/
def DETAIL_CACHE_TTL_SECONDS : Nat := 15

/-- get_match_list from scores_service.py lines 72-137 as explicit state
passing over the cache: the timezone is resolved to tzKey and today outside,
and the per-source fetch outcomes of the cycle are passed as data. Returns
the response, the updated cache, and whether the list was rebuilt (false
exactly on a fresh-cache hit, lines 77-79). -/
def get_match_list (st : Cache CacheVal) (now : Nat) (tzKey : String)
    (today : Nat) (outcomes : List (Except Unit (List Match))) :
    MatchListResponse × Cache CacheVal × Bool :=
  let cache_key := "list:" ++ tzKey ++ ":" ++ toString today
  match cacheGet st cache_key now with
  | some (CacheVal.listResp r) => (r, st, false)
  | _ =>
    let all_matches := _fetch_all_sources outcomes
    let url_map := buildUrlMap all_matches
    let st1 := cacheSet st ("urlmap:" ++ tzKey) (CacheVal.urlMapVal url_map) 3600 now
    let sel := selectList all_matches today
    let resp : MatchListResponse :=
      { mode := sel.mode, timezone := tzKey, generated_at := now,
        items := sel.items, live := sel.live, upcoming := sel.upcoming,
        recent := sel.recent }
    let st2 := cacheSet st1 cache_key (CacheVal.listResp resp)
      LIST_CACHE_TTL_SECONDS now
    (resp, st2, true)

/-- Python truthiness test `if not match_url`: absent or empty url. -/
def falsyUrl (o : Option String) : Bool :=
  match o with
  | none => true
  | some s => s == ""

/-- Outcome of one get_match_detail call: result, final cache state, the
number of get_match_list invocations performed, and the number of actual
list rebuilds those invocations did. -/
structure DetailOutcome where
  result : Option MatchDetailResponse
  state : Cache CacheVal
  listCalls : Nat
  rebuilds : Nat
deriving DecidableEq, Repr

/-- The url-map read of get_match_detail lines 147 and 153:
cache.get("urlmap:tz") or an empty dict. -/
def cachedUrlMap (st : Cache CacheVal) (tzKey : String) (now : Nat) :
    List (Nat × String) :=
  match cacheGet st ("urlmap:" ++ tzKey) now with
  | some (CacheVal.urlMapVal d) => d
  | _ => []

/-- The excerpt try/except of get_match_detail lines 162-166: a raising
excerpt fetch yields no excerpt. -/
def absorbExcerpt (o : Except Unit String) : Option String :=
  match o with
  | Except.ok s => some s
  | Except.error _ => none

/-- The body of get_match_detail after a detail-cache miss
(scores_service.py lines 146-175): url-map resolution, a single
list-refresh retry when the url is unresolved (lines 151-154), an absent
result when still unresolved (lines 156-157), otherwise the minimal
resolved Match of line 160 plus the best-effort excerpt of lines 162-166,
cached and returned. -/
def detailAfterMiss (st : Cache CacheVal) (now : Nat) (tzKey : String)
    (today : Nat) (match_id : Nat)
    (outcomes : List (Except Unit (List Match)))
    (excerptFetch : Except Unit String) : DetailOutcome :=
  let cache_key := "detail:" ++ tzKey ++ ":" ++ toString match_id
  let match_url := urlMapGet (cachedUrlMap st tzKey now) match_id
  let retried :=
    if falsyUrl match_url then
      let r := get_match_list st now tzKey today outcomes
      (urlMapGet (cachedUrlMap r.2.1 tzKey now) match_id, r.2.1, 1,
       if r.2.2 then 1 else 0)
    else (match_url, st, 0, 0)
  if falsyUrl retried.1 then
    { result := none, state := retried.2.1, listCalls := retried.2.2.1,
      rebuilds := retried.2.2.2 }
  else
    let u := retried.1.getD ""
    let m : Match := { match_id := match_id, source := "resolved", url := u }
    let excerpt := absorbExcerpt excerptFetch
    let resp : MatchDetailResponse :=
      { match_ := m, fetched_at := now, timezone := tzKey,
        raw_text_excerpt := excerpt }
    let st2 := cacheSet retried.2.1 cache_key (CacheVal.detailResp resp)
      DETAIL_CACHE_TTL_SECONDS now
    { result := some resp, state := st2, listCalls := retried.2.2.1,
      rebuilds := retried.2.2.2 }

/-- get_match_detail from scores_service.py lines 139-175 as explicit state
passing: a fresh cached detail response is returned as is (lines 142-144),
otherwise the resolution body runs. -/
def get_match_detail (st : Cache CacheVal) (now : Nat) (tzKey : String)
    (today : Nat) (match_id : Nat)
    (outcomes : List (Except Unit (List Match)))
    (excerptFetch : Except Unit String) : DetailOutcome :=
  match cacheGet st ("detail:" ++ tzKey ++ ":" ++ toString match_id) now with
  | some (CacheVal.detailResp r) =>
    { result := some r, state := st, listCalls := 0, rebuilds := 0 }
  | _ => detailAfterMiss st now tzKey today match_id outcomes excerptFetch

/-- C1: for every input text whose lower-cased form contains any RESULT cue
("won by", "match drawn", "abandoned", "no result", "tied", "stumps -",
"result"), classify_status returns RESULT, regardless of any co-occurring
LIVE score cue in the same text. -/
theorem c1_result_cue_wins (s : String)
    (h : isSubstr ("won by").toList (pyLower s.toList) = true ∨
         isSubstr ("match drawn").toList (pyLower s.toList) = true ∨
         isSubstr ("abandoned").toList (pyLower s.toList) = true ∨
         isSubstr ("no result").toList (pyLower s.toList) = true ∨
         isSubstr ("tied").toList (pyLower s.toList) = true ∨
         isSubstr ("stumps -").toList (pyLower s.toList) = true ∨
         isSubstr ("result").toList (pyLower s.toList) = true) :
    classify_status s = "RESULT" := by
  have hc : (resultCues.any fun cue => isSubstr cue (pyLower s.toList)) = true := by
    rcases h with h | h | h | h | h | h | h <;>
      exact List.any_eq_true.2 ⟨_, by decide, h⟩
  simp only [classify_status]
  rw [if_pos hc]

/-- Witness for C1 at a text holding both a RESULT cue and LIVE score cues
(an N and N score and a Day N marker). -/
theorem c1_result_cue_wins_witness :
    scoreLike ("AUS 152 & 132, Day 2 - match drawn").toList = true ∧
    classify_status "AUS 152 & 132, Day 2 - match drawn" = "RESULT" :=
  ⟨by decide, c1_result_cue_wins _ (Or.inr (Or.inl (by decide)))⟩

/-- C2: for records with the same match_id, the merged status is the
incoming one exactly when the prior status is UNKNOWN and the incoming one
is known; in every other case the prior status is kept, so a known status
is never replaced. -/
theorem c2_merge_status_rule (old new : Match)
    (_hid : old.match_id = new.match_id) :
    ((old.status = MatchStatus.UNKNOWN ∧ new.status ≠ MatchStatus.UNKNOWN) →
      (_merge old new).status = new.status) ∧
    (¬ (old.status = MatchStatus.UNKNOWN ∧ new.status ≠ MatchStatus.UNKNOWN) →
      (_merge old new).status = old.status) ∧
    (old.status ≠ MatchStatus.UNKNOWN →
      (_merge old new).status = old.status) := by
  have key : ∀ o n : MatchStatus,
      ((o = MatchStatus.UNKNOWN ∧ n ≠ MatchStatus.UNKNOWN) → mergeStatus o n = n) ∧
      (¬ (o = MatchStatus.UNKNOWN ∧ n ≠ MatchStatus.UNKNOWN) → mergeStatus o n = o) ∧
      (o ≠ MatchStatus.UNKNOWN → mergeStatus o n = o) := by
    intro o n
    cases o <;> cases n <;> decide
  exact key old.status new.status

/-- Witness for C2: merging a LIVE record with a same-id UNKNOWN record
keeps LIVE. -/
theorem c2_merge_status_rule_witness :
    ({ match_id := 1, source := "a", url := "u",
       status := MatchStatus.LIVE } : Match).match_id =
      ({ match_id := 1, source := "b", url := "v" } : Match).match_id ∧
    (_merge
      ({ match_id := 1, source := "a", url := "u",
         status := MatchStatus.LIVE } : Match)
      ({ match_id := 1, source := "b", url := "v" } : Match)).status =
      MatchStatus.LIVE :=
  ⟨rfl,
   (c2_merge_status_rule
      { match_id := 1, source := "a", url := "u", status := MatchStatus.LIVE }
      { match_id := 1, source := "b", url := "v" } rfl).2.1 (by decide)⟩

/-- mergeOptStr leaves a field unchanged when merged with itself. -/
theorem mergeOptStr_self (o : Option String) : mergeOptStr o o = o := by
  cases o with
  | none => rfl
  | some s =>
    show (if s = "" then some s else some s) = some s
    split <;> rfl

/-- mergeOptDate leaves a field unchanged when merged with itself. -/
theorem mergeOptDate_self (o : Option Nat) : mergeOptDate o o = o := by
  cases o <;> rfl

/-- mergeStatus leaves a status unchanged when merged with itself. -/
theorem mergeStatus_self (o : MatchStatus) : mergeStatus o o = o := by
  unfold mergeStatus
  split <;> rfl

/-- The url/source pipeline of _merge leaves a value unchanged when both
sides carry it. -/
theorem pyOrStr_mergeStrLoop_self (s : String) : pyOrStr s (mergeStrLoop s s) = s := by
  unfold mergeStrLoop pyOrStr
  by_cases hs : s = "" <;> simp [hs]

/-- C8: merge is idempotent: merging any record with itself changes no
field, including status, url and source. -/
theorem c8_merge_idempotent (a : Match) : _merge a a = a := by
  unfold _merge
  simp only [mergeOptStr_self, mergeOptDate_self, mergeStatus_self,
    pyOrStr_mergeStrLoop_self]

/-- C7: a source whose fetch raises contributes nothing: the aggregated
merge equals both that of the remaining sources alone and that of the same
cycle with the failure replaced by an empty list, so no single failure
propagates or blocks the others. -/
theorem c7_fetch_failure_absorbed (pre post : List (Except Unit (List Match))) :
    _fetch_all_sources (pre ++ Except.error () :: post) =
      _fetch_all_sources (pre ++ post) ∧
    _fetch_all_sources (pre ++ Except.error () :: post) =
      _fetch_all_sources (pre ++ Except.ok [] :: post) := by
  constructor <;> simp [_fetch_all_sources, List.foldl_append, absorbFetch]

/-- C9: on the spec-modelled TTL cache, a set followed immediately by a get
returns the value just stored (set overwrites whatever entry was there),
and once the TTL has elapsed the same get returns absent. -/
theorem c9_cache_roundtrip {α : Type} (c : Cache α) (key : String) (v : α)
    (ttl now : Nat) (h : 0 < ttl) :
    cacheGet (cacheSet c key v ttl now) key now = some v ∧
    ∀ t, now + ttl ≤ t → cacheGet (cacheSet c key v ttl now) key t = none := by
  have hfind : List.find? (fun p => p.1 == key) (cacheSet c key v ttl now) =
      some (key, { value := v, expires_at := now + ttl }) := by
    unfold cacheSet
    exact List.find?_cons_of_pos _ (by simp)
  constructor
  · unfold cacheGet
    rw [hfind]
    simp [Nat.lt_add_of_pos_right h]
  · intro t ht
    unfold cacheGet
    rw [hfind]
    simp [Nat.not_lt.mpr ht]

/-- Witness for C9 at a concrete key, value and TTL on the empty cache. -/
theorem c9_cache_roundtrip_witness :
    (0 : Nat) < 5 ∧
    cacheGet (cacheSet ([] : Cache Nat) "k" 3 5 0) "k" 0 = some 3 ∧
    cacheGet (cacheSet ([] : Cache Nat) "k" 3 5 0) "k" 5 = none :=
  ⟨by decide, (c9_cache_roundtrip [] "k" 3 5 0 (by decide)).1,
   (c9_cache_roundtrip [] "k" 3 5 0 (by decide)).2 5 (by decide)⟩

/-- C5 (evaluation at the failing input): on "Feb 30 2025" the first date
regex of parse_date_range matches and date(2025, 2, 30) is constructed, an
invalid calendar date, so the function raises ValueError (embedded as
Except.error) instead of returning a pair of optional dates. -/
theorem c5_parse_date_range_raises :
    parse_date_range "Feb 30 2025" = Except.error () := rfl

/-- A list holding a member is not isEmpty. -/
theorem isEmpty_false_of_mem {α : Type} {a : α} {l : List α} (h : a ∈ l) :
    l.isEmpty = false := by
  cases l with
  | nil => cases h
  | cons x xs => rfl


/-- Membership in an insertSorted list is membership in the inserted
element or the original list. -/
theorem mem_insertSorted {α : Type} (le : α → α → Bool) (x a : α)
    (l : List α) : a ∈ insertSorted le x l ↔ a = x ∨ a ∈ l := by
  induction l with
  | nil => simp [insertSorted]
  | cons y ys ih =>
    simp only [insertSorted]
    split
    · simp only [List.mem_cons, ih]
      tauto
    · simp only [List.mem_cons]

/-- Membership through the insertion-sort fold. -/
theorem mem_insertionSort_fold {α : Type} (le : α → α → Bool) (l acc : List α)
    (a : α) :
    a ∈ l.foldl (fun acc x => insertSorted le x acc) acc ↔ a ∈ acc ∨ a ∈ l := by
  induction l generalizing acc with
  | nil => simp
  | cons x xs ih =>
    simp only [List.foldl_cons, ih, mem_insertSorted, List.mem_cons]
    tauto

/-- insertionSort preserves the members of its input. -/
theorem mem_insertionSort {α : Type} (le : α → α → Bool) (l : List α)
    (a : α) : a ∈ insertionSort le l ↔ a ∈ l := by
  simp [insertionSort, mem_insertionSort_fold]

/-- Inserting into a pairwise-ordered list keeps it pairwise ordered, for a
total transitive comparison. -/
theorem pairwise_insertSorted {α : Type} (le : α → α → Bool)
    (htot : ∀ a b, (le a b || le b a) = true)
    (htrans : ∀ a b c, le a b = true → le b c = true → le a c = true)
    (x : α) (l : List α) (h : l.Pairwise (fun a b => le a b = true)) :
    (insertSorted le x l).Pairwise (fun a b => le a b = true) := by
  induction l with
  | nil => simp [insertSorted]
  | cons y ys ih =>
    rcases List.pairwise_cons.1 h with ⟨hy, hys⟩
    simp only [insertSorted]
    split
    case isTrue hyx =>
      refine List.pairwise_cons.2 ⟨?_, ih hys⟩
      intro b hb
      rcases (mem_insertSorted le x b ys).1 hb with rfl | hbys
      · exact hyx
      · exact hy b hbys
    case isFalse hyx =>
      have hxy : le x y = true := by
        rcases Bool.or_eq_true_iff.1 (htot y x) with h1 | h1
        · exact absurd h1 hyx
        · rcases Bool.or_eq_true_iff.1 (htot x y) with h2 | h2
          · exact h2
          · exact h1
      refine List.pairwise_cons.2 ⟨?_, List.pairwise_cons.2 ⟨hy, hys⟩⟩
      intro b hb
      rcases List.mem_cons.1 hb with rfl | hbys
      · exact hxy
      · exact htrans x y b hxy (hy b hbys)

/-- The insertion-sort fold keeps the accumulator pairwise ordered. -/
theorem pairwise_insertionSort_fold {α : Type} (le : α → α → Bool)
    (htot : ∀ a b, (le a b || le b a) = true)
    (htrans : ∀ a b c, le a b = true → le b c = true → le a c = true)
    (l acc : List α) (hacc : acc.Pairwise (fun a b => le a b = true)) :
    (l.foldl (fun acc x => insertSorted le x acc) acc).Pairwise
      (fun a b => le a b = true) := by
  induction l generalizing acc with
  | nil => exact hacc
  | cons x xs ih =>
    exact ih _ (pairwise_insertSorted le htot htrans x acc hacc)

/-- insertionSort output is pairwise ordered by a total transitive
comparison. -/
theorem pairwise_insertionSort {α : Type} (le : α → α → Bool)
    (htot : ∀ a b, (le a b || le b a) = true)
    (htrans : ∀ a b c, le a b = true → le b c = true → le a c = true)
    (l : List α) :
    (insertionSort le l).Pairwise (fun a b => le a b = true) :=
  pairwise_insertionSort_fold le htot htrans l [] List.Pairwise.nil

/-- Any prefix of an insertionSort output is pairwise ordered. -/
theorem pairwise_insertionSort_take {α : Type} (le : α → α → Bool)
    (htot : ∀ a b, (le a b || le b a) = true)
    (htrans : ∀ a b c, le a b = true → le b c = true → le a c = true)
    (l : List α) (n : Nat) :
    ((insertionSort le l).take n).Pairwise (fun a b => le a b = true) :=
  List.Pairwise.sublist (List.take_sublist n _)
    (pairwise_insertionSort le htot htrans l)

/-- Members of a prefix of an insertionSort output come from the input. -/
theorem mem_of_mem_insertionSort_take {α : Type} {m : α} {l : List α}
    {le : α → α → Bool} {n : Nat}
    (h : m ∈ (insertionSort le l).take n) : m ∈ l :=
  (mem_insertionSort le l m).1 (List.take_subset n _ h)

/-- The mixed branch of selectList, spelled out: taken exactly when no
match qualifies as today. -/
theorem selectList_no_today (ms : List Match) (today : Nat)
    (h : (ms.filter fun x => isTodayMatch x today).isEmpty = true) :
    selectList ms today =
      { mode := "mixed",
        items :=
          (insertionSort (fun a b => decide (recentKey b ≤ recentKey a))
            (ms.filter fun m => pastPred m today)).take 5 ++
          (insertionSort (fun a b => decide (futKey a ≤ futKey b))
            (ms.filter fun m => futPred m today)).take 5,
        live := (ms.filter fun x => isTodayMatch x today).filter
          (fun m => m.status == MatchStatus.LIVE),
        upcoming := (insertionSort (fun a b => decide (futKey a ≤ futKey b))
          (ms.filter fun m => futPred m today)).take 5,
        recent := (insertionSort (fun a b => decide (recentKey b ≤ recentKey a))
          (ms.filter fun m => pastPred m today)).take 5 } := by
  simp only [selectList]
  rw [if_pos h]

/-- C3: whenever some fetched match has status LIVE and qualifies as today,
the list selection has mode "live" and its items are exactly the
today-qualifying LIVE matches, followed by the today-qualifying UPCOMING
matches, followed by the today-qualifying RESULT matches. -/
theorem c3_live_mode (ms : List Match) (today : Nat)
    (h : ∃ m ∈ ms, isTodayMatch m today = true ∧ m.status = MatchStatus.LIVE) :
    (selectList ms today).mode = "live" ∧
    (selectList ms today).items =
      ms.filter (fun m => m.status == MatchStatus.LIVE && isTodayMatch m today) ++
      (ms.filter (fun m => m.status == MatchStatus.UPCOMING && isTodayMatch m today) ++
       ms.filter (fun m => m.status == MatchStatus.RESULT && isTodayMatch m today)) := by
  obtain ⟨m, hm, hT, hS⟩ := h
  have hmemT : m ∈ ms.filter (fun x => isTodayMatch x today) :=
    List.mem_filter.2 ⟨hm, hT⟩
  have hTne : (ms.filter fun x => isTodayMatch x today).isEmpty = false :=
    isEmpty_false_of_mem hmemT
  have hLne : (ms.filter fun a =>
      a.status == MatchStatus.LIVE && isTodayMatch a today).isEmpty = false :=
    isEmpty_false_of_mem (List.mem_filter.2 ⟨hm, by simp [hS, hT]⟩)
  simp only [selectList, List.filter_filter, hTne, hLne, Bool.not_false,
    Bool.false_eq_true, if_false, eq_self_iff_true, if_true]
  constructor <;> simp [List.append_assoc]

/-- Witness for C3 at a set with one LIVE-today match and two
UPCOMING-today matches: mode is live and the live match leads the items. -/
theorem c3_live_mode_witness :
    (selectList
      [{ match_id := 1, source := "s1", url := "u1",
         status := MatchStatus.LIVE, start_date := some 20250110,
         end_date := some 20250110 },
       { match_id := 2, source := "s2", url := "u2",
         status := MatchStatus.UPCOMING, start_date := some 20250110 },
       { match_id := 3, source := "s3", url := "u3",
         status := MatchStatus.UPCOMING, start_date := some 20250110 }]
      20250110).mode = "live" ∧
    (selectList
      [{ match_id := 1, source := "s1", url := "u1",
         status := MatchStatus.LIVE, start_date := some 20250110,
         end_date := some 20250110 },
       { match_id := 2, source := "s2", url := "u2",
         status := MatchStatus.UPCOMING, start_date := some 20250110 },
       { match_id := 3, source := "s3", url := "u3",
         status := MatchStatus.UPCOMING, start_date := some 20250110 }]
      20250110).items =
      [{ match_id := 1, source := "s1", url := "u1",
         status := MatchStatus.LIVE, start_date := some 20250110,
         end_date := some 20250110 },
       { match_id := 2, source := "s2", url := "u2",
         status := MatchStatus.UPCOMING, start_date := some 20250110 },
       { match_id := 3, source := "s3", url := "u3",
         status := MatchStatus.UPCOMING, start_date := some 20250110 }] :=
  ⟨(c3_live_mode _ 20250110 (by decide)).1,
   (c3_live_mode _ 20250110 (by decide)).2.trans (by decide)⟩

/-- C4 counterexample: a single LIVE-status match whose dates lie wholly in
the past gives a fetched set with no today-qualifying match, yet the
mixed-mode items contain that LIVE match, which is neither a past RESULT
nor a future UPCOMING match; the items therefore do not consist of past
results followed by future upcoming matches. -/
theorem c4_mixed_claim_counterexample :
    (∀ m ∈ [({ match_id := 11, source := "s", url := "u",
               status := MatchStatus.LIVE, start_date := some 20250101,
               end_date := some 20250105 } : Match)],
       isTodayMatch m 20250110 = false) ∧
    (selectList
      [{ match_id := 11, source := "s", url := "u",
         status := MatchStatus.LIVE, start_date := some 20250101,
         end_date := some 20250105 }] 20250110).mode = "mixed" ∧
    (selectList
      [{ match_id := 11, source := "s", url := "u",
         status := MatchStatus.LIVE, start_date := some 20250101,
         end_date := some 20250105 }] 20250110).items =
      [{ match_id := 11, source := "s", url := "u",
         status := MatchStatus.LIVE, start_date := some 20250101,
         end_date := some 20250105 }] ∧
    ¬ (∀ m ∈ (selectList
        [{ match_id := 11, source := "s", url := "u",
           status := MatchStatus.LIVE, start_date := some 20250101,
           end_date := some 20250105 }] 20250110).items,
        m.status = MatchStatus.RESULT ∨ m.status = MatchStatus.UPCOMING) := by
  decide

/-- C4 as amended: with no today-qualifying match the selection has mode
"mixed" and at most 10 items: at most 5 matches from the past bucket
(ended before today, or started before today with RESULT status) ordered
by end/start-date key descending, then at most 5 matches from the future
bucket (starting after today, or of UPCOMING status regardless of date)
ordered by start-date key ascending. -/
theorem c4_mixed_shape (ms : List Match) (today : Nat)
    (h : ∀ m ∈ ms, isTodayMatch m today = false) :
    (selectList ms today).mode = "mixed" ∧
    (selectList ms today).items.length ≤ 10 ∧
    ∃ r f, (selectList ms today).items = r ++ f ∧
      r.length ≤ 5 ∧ f.length ≤ 5 ∧
      (∀ m ∈ r, pastPred m today = true) ∧
      (∀ m ∈ f, futPred m today = true) ∧
      r.Pairwise (fun a b => recentKey b ≤ recentKey a) ∧
      f.Pairwise (fun a b => futKey a ≤ futKey b) := by
  have hfil : ms.filter (fun x => isTodayMatch x today) = [] :=
    List.filter_eq_nil_iff.2 (by intro a ha; simp [h a ha])
  have hempty : (ms.filter fun x => isTodayMatch x today).isEmpty = true := by
    rw [hfil]; rfl
  rw [selectList_no_today ms today hempty]
  refine ⟨rfl, ?_, ?_⟩
  · have h1 := Nat.min_le_left 5 (insertionSort
      (fun a b => decide (recentKey b ≤ recentKey a))
      (ms.filter fun m => pastPred m today)).length
    have h2 := Nat.min_le_left 5 (insertionSort
      (fun a b => decide (futKey a ≤ futKey b))
      (ms.filter fun m => futPred m today)).length
    simp only [List.length_append, List.length_take]
    omega
  · refine ⟨_, _, rfl, ?_, ?_, ?_, ?_, ?_, ?_⟩
    · simp only [List.length_take]
      exact Nat.min_le_left _ _
    · simp only [List.length_take]
      exact Nat.min_le_left _ _
    · intro m hmem
      exact (List.mem_filter.1 (mem_of_mem_insertionSort_take hmem)).2
    · intro m hmem
      exact (List.mem_filter.1 (mem_of_mem_insertionSort_take hmem)).2
    · exact (pairwise_insertionSort_take _
        (fun a b => by
          rcases Nat.le_total (recentKey b) (recentKey a) with hle | hle <;>
            simp [hle])
        (fun a b c hab hbc => by
          simp only [decide_eq_true_eq] at hab hbc ⊢
          exact Nat.le_trans hbc hab) _ 5).imp
        (fun hab => of_decide_eq_true hab)
    · exact (pairwise_insertionSort_take _
        (fun a b => by
          rcases Nat.le_total (futKey a) (futKey b) with hle | hle <;>
            simp [hle])
        (fun a b c hab hbc => by
          simp only [decide_eq_true_eq] at hab hbc ⊢
          exact Nat.le_trans hab hbc) _ 5).imp
        (fun hab => of_decide_eq_true hab)

/-- Witness for C4's amended statement at a concrete no-today set. -/
theorem c4_mixed_shape_witness :
    (∀ m ∈ [({ match_id := 11, source := "s", url := "u",
               status := MatchStatus.LIVE, start_date := some 20250101,
               end_date := some 20250105 } : Match)],
       isTodayMatch m 20250110 = false) ∧
    (selectList
      [{ match_id := 11, source := "s", url := "u",
         status := MatchStatus.LIVE, start_date := some 20250101,
         end_date := some 20250105 }] 20250110).mode = "mixed" ∧
    (selectList
      [{ match_id := 11, source := "s", url := "u",
         status := MatchStatus.LIVE, start_date := some 20250101,
         end_date := some 20250105 }] 20250110).items.length ≤ 10 :=
  ⟨by decide,
   (c4_mixed_shape _ 20250110 (by decide)).1,
   (c4_mixed_shape _ 20250110 (by decide)).2.1⟩

/-- On a detail-cache miss, get_match_detail runs its resolution body. -/
theorem get_match_detail_of_miss (st : Cache CacheVal) (now : Nat)
    (tzKey : String) (today : Nat) (id : Nat)
    (outcomes : List (Except Unit (List Match))) (ex : Except Unit String)
    (hmiss : ∀ r, cacheGet st ("detail:" ++ tzKey ++ ":" ++ toString id) now ≠
      some (CacheVal.detailResp r)) :
    get_match_detail st now tzKey today id outcomes ex =
      detailAfterMiss st now tzKey today id outcomes ex := by
  unfold get_match_detail
  cases hc : cacheGet st ("detail:" ++ tzKey ++ ":" ++ toString id) now with
  | none => rfl
  | some v =>
    cases v with
    | listResp r => rfl
    | urlMapVal d => rfl
    | detailResp r => exact absurd hc (hmiss r)

/-- An option url is not falsy exactly when it holds a non-empty url. -/
theorem falsyUrl_eq_false_iff (o : Option String) :
    falsyUrl o = false ↔ ∃ u, o = some u ∧ u ≠ "" := by
  cases o with
  | none => simp [falsyUrl]
  | some s => simp [falsyUrl]

/-- C6 counterexample: with a fresh cached list response and a cached
url-map lacking the requested id, get_match_detail performs zero list
rebuilds (the single get_match_list call is served from the cache) while
still re-looking up once and returning the absent result, so the claim's
"exactly one forced list rebuild" fails. -/
theorem c6_detail_claim_counterexample :
    urlMapGet (cachedUrlMap
      [("list:tz:100",
        { value := CacheVal.listResp
            { mode := "live", timezone := "tz", generated_at := 0, items := [] },
          expires_at := 10 }),
       ("urlmap:tz", { value := CacheVal.urlMapVal [], expires_at := 10 })]
      "tz" 0) 42 = none ∧
    (get_match_detail
      [("list:tz:100",
        { value := CacheVal.listResp
            { mode := "live", timezone := "tz", generated_at := 0, items := [] },
          expires_at := 10 }),
       ("urlmap:tz", { value := CacheVal.urlMapVal [], expires_at := 10 })]
      0 "tz" 100 42 [] (Except.error ())).rebuilds = 0 ∧
    (get_match_detail
      [("list:tz:100",
        { value := CacheVal.listResp
            { mode := "live", timezone := "tz", generated_at := 0, items := [] },
          expires_at := 10 }),
       ("urlmap:tz", { value := CacheVal.urlMapVal [], expires_at := 10 })]
      0 "tz" 100 42 [] (Except.error ())).listCalls = 1 ∧
    (get_match_detail
      [("list:tz:100",
        { value := CacheVal.listResp
            { mode := "live", timezone := "tz", generated_at := 0, items := [] },
          expires_at := 10 }),
       ("urlmap:tz", { value := CacheVal.urlMapVal [], expires_at := 10 })]
      0 "tz" 100 42 [] (Except.error ())).result = none := by
  decide

/-- C6 as amended: when the detail cache misses and the requested id is
absent from (or empty in) the cached url-map, get_match_detail makes
exactly one further get_match_list call (which actually rebuilds the list
exactly when the list cache itself misses), re-looks the id up once in the
url-map that call leaves behind, and, if the id is still unresolved there,
returns the absent result instead of raising or retrying again. -/
theorem c6_detail_single_retry (st : Cache CacheVal) (now : Nat)
    (tzKey : String) (today : Nat) (id : Nat)
    (outcomes : List (Except Unit (List Match))) (ex : Except Unit String)
    (hmiss : ∀ r, cacheGet st ("detail:" ++ tzKey ++ ":" ++ toString id) now ≠
      some (CacheVal.detailResp r))
    (habsent : falsyUrl (urlMapGet (cachedUrlMap st tzKey now) id) = true) :
    (get_match_detail st now tzKey today id outcomes ex).listCalls = 1 ∧
    (get_match_detail st now tzKey today id outcomes ex).rebuilds =
      (if (get_match_list st now tzKey today outcomes).2.2 then 1 else 0) ∧
    (falsyUrl (urlMapGet
        (cachedUrlMap (get_match_list st now tzKey today outcomes).2.1 tzKey now)
        id) = true →
      (get_match_detail st now tzKey today id outcomes ex).result = none) := by
  rw [get_match_detail_of_miss st now tzKey today id outcomes ex hmiss]
  simp only [detailAfterMiss]
  rw [if_pos habsent]
  dsimp only
  by_cases hf : falsyUrl (urlMapGet
      (cachedUrlMap (get_match_list st now tzKey today outcomes).2.1 tzKey now)
      id) = true
  · rw [if_pos hf]
    exact ⟨rfl, rfl, fun _ => rfl⟩
  · rw [if_neg hf]
    exact ⟨rfl, rfl, fun hstill => absurd hstill hf⟩

/-- Witness for C6's amended statement: empty cache, so the single
get_match_list call is a real rebuild and the id stays unresolved. -/
theorem c6_detail_single_retry_witness :
    (get_match_detail [] 0 "tz" 100 42 [] (Except.error ())).listCalls = 1 ∧
    (get_match_detail [] 0 "tz" 100 42 [] (Except.error ())).rebuilds = 1 ∧
    (get_match_detail [] 0 "tz" 100 42 [] (Except.error ())).result = none :=
  ⟨(c6_detail_single_retry [] 0 "tz" 100 42 [] (Except.error ())
      (by intro r hr; simp [cacheGet] at hr) (by decide)).1,
   ((c6_detail_single_retry [] 0 "tz" 100 42 [] (Except.error ())
      (by intro r hr; simp [cacheGet] at hr) (by decide)).2.1).trans (by decide),
   (c6_detail_single_retry [] 0 "tz" 100 42 [] (Except.error ())
      (by intro r hr; simp [cacheGet] at hr) (by decide)).2.2 (by decide)⟩

/-- C10: a detail response built by get_match_detail (not served from the
detail cache) carries the minimal resolved match of line 160: exactly the
requested id, source "resolved", and the non-empty url resolved from the
cached url-map (the prior one or the one left by the single list refresh),
with every other Match field at its schema default (status UNKNOWN, no
title, series, description, dates or summaries); the stored excerpt is
exactly the best-effort fetched text, so the match itself is never
re-fetched or re-classified. -/
theorem c10_detail_minimal_match (st : Cache CacheVal) (now : Nat)
    (tzKey : String) (today : Nat) (id : Nat)
    (outcomes : List (Except Unit (List Match))) (ex : Except Unit String)
    (resp : MatchDetailResponse)
    (hmiss : ∀ r, cacheGet st ("detail:" ++ tzKey ++ ":" ++ toString id) now ≠
      some (CacheVal.detailResp r))
    (hres : (get_match_detail st now tzKey today id outcomes ex).result =
      some resp) :
    (∃ u, u ≠ "" ∧
      (urlMapGet (cachedUrlMap st tzKey now) id = some u ∨
       urlMapGet (cachedUrlMap (get_match_list st now tzKey today outcomes).2.1
         tzKey now) id = some u) ∧
      resp.match_ = { match_id := id, source := "resolved", url := u }) ∧
    resp.raw_text_excerpt = absorbExcerpt ex := by
  rw [get_match_detail_of_miss st now tzKey today id outcomes ex hmiss] at hres
  simp only [detailAfterMiss] at hres
  by_cases h0 : falsyUrl (urlMapGet (cachedUrlMap st tzKey now) id) = true
  · rw [if_pos h0] at hres
    dsimp only at hres
    by_cases h1 : falsyUrl (urlMapGet
        (cachedUrlMap (get_match_list st now tzKey today outcomes).2.1 tzKey now)
        id) = true
    · rw [if_pos h1] at hres
      exact absurd hres (by simp)
    · rw [if_neg h1] at hres
      dsimp only at hres
      have h1f : falsyUrl (urlMapGet
          (cachedUrlMap (get_match_list st now tzKey today outcomes).2.1
            tzKey now) id) = false := by
        cases hfv : falsyUrl (urlMapGet
            (cachedUrlMap (get_match_list st now tzKey today outcomes).2.1
              tzKey now) id) with
        | false => rfl
        | true => exact absurd hfv h1
      obtain ⟨u, hu, hune⟩ := (falsyUrl_eq_false_iff _).1 h1f
      rw [hu] at hres
      injection hres with hresp
      subst hresp
      exact ⟨⟨u, hune, Or.inr hu, rfl⟩, rfl⟩
  · rw [if_neg h0] at hres
    dsimp only at hres
    rw [if_neg h0] at hres
    dsimp only at hres
    have h0f : falsyUrl (urlMapGet (cachedUrlMap st tzKey now) id) = false := by
      cases hfv : falsyUrl (urlMapGet (cachedUrlMap st tzKey now) id) with
      | false => rfl
      | true => exact absurd hfv h0
    obtain ⟨u, hu, hune⟩ := (falsyUrl_eq_false_iff _).1 h0f
    rw [hu] at hres
    injection hres with hresp
    subst hresp
    exact ⟨⟨u, hune, Or.inl hu, rfl⟩, rfl⟩

/-- Witness for C10 at a cache whose url-map holds the requested id: the
built response carries the minimal resolved match and the fetched
excerpt. -/
theorem c10_detail_minimal_match_witness :
    (∃ u, u ≠ "" ∧
      (urlMapGet (cachedUrlMap
          [("urlmap:tz", { value := CacheVal.urlMapVal [(42, "https://x")],
                           expires_at := 100 })] "tz" 0) 42 = some u ∨
       urlMapGet (cachedUrlMap (get_match_list
          [("urlmap:tz", { value := CacheVal.urlMapVal [(42, "https://x")],
                           expires_at := 100 })] 0 "tz" 100 []).2.1
          "tz" 0) 42 = some u) ∧
      ({ match_ := { match_id := 42, source := "resolved", url := "https://x" },
         fetched_at := 0, timezone := "tz",
         raw_text_excerpt := some "text" } : MatchDetailResponse).match_ =
        { match_id := 42, source := "resolved", url := u }) ∧
    ({ match_ := { match_id := 42, source := "resolved", url := "https://x" },
       fetched_at := 0, timezone := "tz",
       raw_text_excerpt := some "text" } : MatchDetailResponse).raw_text_excerpt =
      absorbExcerpt (Except.ok "text") :=
  c10_detail_minimal_match
    [("urlmap:tz", { value := CacheVal.urlMapVal [(42, "https://x")],
                     expires_at := 100 })]
    0 "tz" 100 42 [] (Except.ok "text")
    { match_ := { match_id := 42, source := "resolved", url := "https://x" },
      fetched_at := 0, timezone := "tz", raw_text_excerpt := some "text" }
    (by
      intro r hr
      rw [(by decide : cacheGet
        [("urlmap:tz", { value := CacheVal.urlMapVal [(42, "https://x")],
                         expires_at := 100 })]
        ("detail:" ++ "tz" ++ ":" ++ toString 42) 0 = (none : Option CacheVal))]
        at hr
      cases hr)
    (by decide)
